import Mathlib

/-!
Verification of the transport-lookup page of Property-Pulse-v2
(`src/pages/3_Transport_Info.py`).

The page's three algorithmic pieces are embedded shallowly:

* `get_google_geocode_data` — the geocode resolver, as a pure function of the
  postcode and the (abstracted) HTTP outcome;
* `haversineR` / `haversineQ` — the great-circle distance function, over real
  numbers (Python floats are idealised as reals);
* `get_google_places_data` — the seven-query nearby-transport aggregator, as a
  pure function of an abstract places API `QueryDetail → QueryOutcome`
  (the HTTP layer; exceptions and malformed payloads both surface as the
  `exception` constructor, since the source catches every exception the same
  way) together with the coordinates and radius;
* `sortStations` / `stationsOfType` — the detail-tab grouping and sorting.

Python-specific semantics preserved by the embedding: `dict` insertion order
(the accumulator is an insertion-ordered list keyed on `google_place_id`),
string containment via `in`, `.lower()`, and the truthiness tests
`if not place_id` and `if origin_lat and origin_lon` (where `None` and `0.0`
are falsy).
-/

namespace TransportInfo

/-! ### String helpers (Python `in` and `.lower()`) -/

/-- Whether, in `charsStartWith n h`, `n` is an initial segment of `h`. -/
def charsStartWith : List Char → List Char → Bool
  | [], _ => true
  | _ :: _, [] => false
  | a :: as, b :: bs => a == b && charsStartWith as bs

/-- Whether, in `charsContain n h`, `n` occurs contiguously inside `h`. -/
def charsContain (needle : List Char) : List Char → Bool
  | [] => charsStartWith needle []
  | b :: bs => charsStartWith needle (b :: bs) || charsContain needle bs

/-- Python substring test `needle in hay`. -/
def strContains (needle hay : String) : Bool :=
  charsContain needle.data hay.data

/-- Python `str.lower()` (character-wise lowering). -/
def strLower (s : String) : String := String.mk (s.data.map Char.toLower)

/-! ### Data model -/

/-- The unified transport-mode schema (`app_type` values in the source). -/
inductive TransportMode where
  | train_station
  | tube_station
  | tram_stop
  | bus_stop
deriving DecidableEq

/-- One entry of the `queries` list: a `type` or a `keyword` request. -/
inductive QueryDetail where
  | byType (s : String)
  | byKeyword (s : String)
deriving DecidableEq

/-- A raw candidate from the places API (one element of `data["results"]`).
`place_id` and `name` may be missing (`place.get(...)`); geometry is taken as
present (the source indexes it directly). -/
structure Place where
  place_id : Option String
  name : Option String
  types : List String
  lat : ℚ
  lon : ℚ
  vicinity : Option String
deriving DecidableEq

/-- The record stored in `all_places_dict` for an accepted candidate. -/
structure TransportPlace where
  name : Option String
  latitude : ℚ
  longitude : ℚ
  type : TransportMode
  description : Option String
  google_place_id : String
  distance : Option ℤ
  google_types : List String
  debug_query_source : QueryDetail
deriving DecidableEq

/-- The aggregator's return value: `{"member": ..., "error": ...}` with the
`error` key present only on a transport-level failure. -/
structure AggregatedResult where
  member : List TransportPlace
  error : Option String
deriving DecidableEq

/-- The transport-level outcome of one places query: an exception (network
failure or malformed payload, both caught alike) or a parsed JSON response
with its `status` and `results`. -/
inductive QueryOutcome where
  | exception (msg : String)
  | response (status : String) (results : List Place)
deriving DecidableEq

/-! ### Geocode resolver -/

/-- One entry of `address_components`. -/
structure AddressComponent where
  long_name : String
  types : List String
deriving DecidableEq

/-- One entry of the geocode response's `results`. -/
structure GeoResult where
  lat : ℚ
  lng : ℚ
  address_components : List AddressComponent
  formatted_address : Option String
deriving DecidableEq

/-- Transport-level outcome of the geocoding HTTP call. -/
inductive GeocodeOutcome where
  | exception (msg : String)
  | response (status : String) (results : List GeoResult)
deriving DecidableEq

/-- The location dictionary built on a successful geocode. -/
structure Location where
  latitude : ℚ
  longitude : ℚ
  postcode : String
  formatted_address : String
  admin_district : Option String
  region : Option String
deriving DecidableEq

/-- Return value of the resolver: the location dictionary or the
`{"error": ...}` dictionary. -/
inductive GeocodeResult where
  | ok (loc : Location)
  | error (msg : String)
deriving DecidableEq

/-- The resolver `get_google_geocode_data`, as a function of the postcode and the HTTP
outcome (source lines 37–75). The source's condition
`data["status"] == "OK" and data["results"]` requires a non-empty results
list; `ZERO_RESULTS` yields the "not found" error dictionary; any other
status yields the generic status error; exceptions yield their message. -/
def get_google_geocode_data (postcode : String) (out : GeocodeOutcome) :
    GeocodeResult :=
  match out with
  | .exception e => .error e
  | .response status results =>
    match results with
    | r :: _ =>
      if status = "OK" then
        .ok { latitude := r.lat
              longitude := r.lng
              postcode := postcode
              formatted_address := r.formatted_address.getD postcode
              admin_district :=
                (r.address_components.find?
                  (fun c => c.types.contains "administrative_area_level_2")).map
                  (fun c => c.long_name)
              region :=
                (r.address_components.find?
                  (fun c => c.types.contains "administrative_area_level_1")).map
                  (fun c => c.long_name) }
      else if status = "ZERO_RESULTS" then
        .error ("Postcode not found by Google: " ++ postcode)
      else
        .error ("Geocoding API returned status: " ++ status)
    | [] =>
      if status = "ZERO_RESULTS" then
        .error ("Postcode not found by Google: " ++ postcode)
      else
        .error ("Geocoding API returned status: " ++ status)

/-- The caller flow (source lines 362–377): a places query is attempted
exactly when the geocode result is not the error dictionary. -/
def attemptsPlacesQuery (r : GeocodeResult) : Bool :=
  match r with
  | .error _ => false
  | .ok _ => true

/-! ### Haversine distance -/

/-- Python `math.radians`: degrees to radians. -/
noncomputable def radians (d : ℝ) : ℝ := d * (Real.pi / 180)

/-- Python `math.atan2 y x` over the reals. -/
noncomputable def atan2 (y x : ℝ) : ℝ :=
  if 0 < x then Real.arctan (y / x)
  else if x < 0 ∧ 0 ≤ y then Real.arctan (y / x) + Real.pi
  else if x < 0 ∧ y < 0 then Real.arctan (y / x) - Real.pi
  else if x = 0 ∧ 0 < y then Real.pi / 2
  else if x = 0 ∧ y < 0 then -(Real.pi / 2)
  else 0

/-- The function `haversine` (source lines 77–89), with Python floats idealised as reals:
Earth radius 6 371 000 m, rounded to the nearest whole meter. -/
noncomputable def haversineR (lat1 lon1 lat2 lon2 : ℝ) : ℤ :=
  let R : ℝ := 6371000
  let phi1 := radians lat1
  let phi2 := radians lat2
  let delta_phi := radians (lat2 - lat1)
  let delta_lambda := radians (lon2 - lon1)
  let a := Real.sin (delta_phi / 2) ^ 2 +
    Real.cos phi1 * Real.cos phi2 * Real.sin (delta_lambda / 2) ^ 2
  let c := 2 * atan2 (Real.sqrt a) (Real.sqrt (1 - a))
  round (R * c)

/-- The function `haversine` on the rational coordinates carried by the data model. -/
noncomputable def haversineQ (lat1 lon1 lat2 lon2 : ℚ) : ℤ :=
  haversineR (lat1 : ℝ) (lon1 : ℝ) (lat2 : ℝ) (lon2 : ℝ)

/-! ### Nearby-transport aggregator -/

/-- Python truthiness of an optional float (`None` and `0.0` are falsy). -/
def qTruthy : Option ℚ → Bool
  | none => false
  | some v => v != 0

/-- Python `x or y` on an optional float against a float default. -/
def qOrElse (o : Option ℚ) (d : ℚ) : ℚ :=
  match o with
  | some v => if v ≠ 0 then v else d
  | none => d

/-- The classification chain of source lines 146–163, from the candidate's
name and its provider `types` tags; `none` means the candidate is left
unclassified (and hence discarded by the insertion guard). -/
def classifyPlace (name : String) (google_types : List String) :
    Option TransportMode :=
  let place_name_lower := strLower name
  if strContains "metrolink" place_name_lower then some .tram_stop
  else if google_types.contains "subway_station" then some .tube_station
  else if google_types.contains "light_rail_station" then some .tram_stop
  else if strContains "tram" place_name_lower &&
      !(google_types.contains "train_station") then some .tram_stop
  else if google_types.contains "train_station" then some .train_station
  else if google_types.contains "bus_station" ||
      google_types.contains "bus_stop" then some .bus_stop
  else none

/-- The expression `distance_val` of source line 169:
`haversine(origin_lat or lat, origin_lon or lon, place_lat, place_lon)
 if origin_lat and origin_lon else None`, parametric in the distance
function. -/
def placeDistance (dist : ℚ → ℚ → ℚ → ℚ → ℤ) (lat lon : ℚ)
    (origin_lat origin_lon : Option ℚ) (place_lat place_lon : ℚ) : Option ℤ :=
  if qTruthy origin_lat && qTruthy origin_lon then
    some (dist (qOrElse origin_lat lat) (qOrElse origin_lon lon)
      place_lat place_lon)
  else none

/-- The body of the `for place in data.get("results", [])` loop (source lines
141–181): skip candidates with falsy `place_id`, classify, and insert into the
insertion-ordered accumulator only when a mode was assigned and the identifier
is not yet present. -/
def processPlace (dist : ℚ → ℚ → ℚ → ℚ → ℤ) (lat lon : ℚ)
    (origin_lat origin_lon : Option ℚ) (q : QueryDetail)
    (acc : List TransportPlace) (place : Place) : List TransportPlace :=
  match place.place_id with
  | none => acc
  | some pid =>
    if pid = "" then acc
    else
      match classifyPlace (place.name.getD "") place.types with
      | none => acc
      | some t =>
        if acc.any (fun p => p.google_place_id == pid) then acc
        else acc ++ [{ name := place.name
                       latitude := place.lat
                       longitude := place.lon
                       type := t
                       description := place.vicinity
                       google_place_id := pid
                       distance :=
                         placeDistance dist lat lon origin_lat origin_lon
                           place.lat place.lon
                       google_types := place.types
                       debug_query_source := q }]

/-- The query loop of source lines 114–205: on `"OK"` fold the results into
the accumulator; on any other status skip the query (a warning is only
displayed); on an exception return the accumulated members plus the error
key at once, issuing no further queries. -/
def runQueries (dist : ℚ → ℚ → ℚ → ℚ → ℤ) (api : QueryDetail → QueryOutcome)
    (lat lon : ℚ) (origin_lat origin_lon : Option ℚ) :
    List QueryDetail → List TransportPlace → AggregatedResult
  | [], acc => { member := acc, error := none }
  | q :: rest, acc =>
    match api q with
    | .exception msg => { member := acc, error := some msg }
    | .response status results =>
      if status = "OK" then
        runQueries dist api lat lon origin_lat origin_lon rest
          (results.foldl (processPlace dist lat lon origin_lat origin_lon q) acc)
      else
        runQueries dist api lat lon origin_lat origin_lon rest acc

/-- The fixed 7-query order of source lines 97–105. -/
def queriesList : List QueryDetail :=
  [.byType "train_station",
   .byType "subway_station",
   .byType "light_rail_station",
   .byKeyword "Metrolink station",
   .byKeyword "tram stop",
   .byType "bus_station",
   .byKeyword "bus stop"]

/-- The aggregator with its distance subroutine abstracted. The `radius`
argument only parametrises the HTTP request, which `api` abstracts. -/
def aggregateWith (dist : ℚ → ℚ → ℚ → ℚ → ℤ)
    (api : QueryDetail → QueryOutcome) (lat lon radius : ℚ)
    (origin_lat origin_lon : Option ℚ) : AggregatedResult :=
  runQueries dist api lat lon origin_lat origin_lon queriesList []

/-- The aggregator `get_google_places_data` (source lines 92–205): the aggregator with the
source's `haversine` as distance function. -/
noncomputable def get_google_places_data (api : QueryDetail → QueryOutcome)
    (lat lon radius : ℚ) (origin_lat origin_lon : Option ℚ) :
    AggregatedResult :=
  aggregateWith haversineQ api lat lon radius origin_lat origin_lon

/-! ### Detail-tab grouping and sorting (source lines 407–414) -/

/-- The sort key: `x.get('distance') if ... is not None else float('inf')`,
with `float('inf')` modelled as the top element. -/
def distKey (p : TransportPlace) : WithTop ℤ :=
  match p.distance with
  | some z => (z : WithTop ℤ)
  | none => ⊤

/-- The comparison used to sort a mode group. -/
def placeLE (a b : TransportPlace) : Bool := decide (distKey a ≤ distKey b)

/-- Python `stations_by_type[pt_key].sort(key=...)`: ascending sort by `distKey`. -/
def sortStations (l : List TransportPlace) : List TransportPlace :=
  l.mergeSort placeLE

/-- The grouping of members into `stations_by_type` (source lines 407–411). -/
def stationsOfType (t : TransportMode) (member : List TransportPlace) :
    List TransportPlace :=
  member.filter (fun p => p.type == t)

/-- Pointwise update of an abstract places API at one query. -/
def updateApi (api : QueryDetail → QueryOutcome) (q : QueryDetail)
    (o : QueryOutcome) : QueryDetail → QueryOutcome :=
  fun x => if x = q then o else api x

/-! ### Helper lemmas: substring containment survives right-extension -/

lemma charsStartWith_append {n l : List Char} (t : List Char)
    (h : charsStartWith n l = true) : charsStartWith n (l ++ t) = true := by
  induction n generalizing l with
  | nil => simp [charsStartWith]
  | cons a as ih =>
    cases l with
    | nil => simp [charsStartWith] at h
    | cons b bs =>
      simp only [charsStartWith, Bool.and_eq_true] at h ⊢
      exact ⟨h.1, ih h.2⟩

lemma charsContain_nil_needle (l : List Char) : charsContain [] l = true := by
  cases l <;> simp [charsContain, charsStartWith]

lemma charsContain_append {n l : List Char} (t : List Char)
    (h : charsContain n l = true) : charsContain n (l ++ t) = true := by
  induction l with
  | nil =>
    simp only [charsContain] at h
    cases n with
    | nil => simpa using charsContain_nil_needle t
    | cons a as => simp [charsStartWith] at h
  | cons b bs ih =>
    simp only [charsContain, Bool.or_eq_true] at h ⊢
    rcases h with h | h
    · exact Or.inl (charsStartWith_append t h)
    · exact Or.inr (ih h)

lemma strContains_append_right {n s : String} (t : String)
    (h : strContains n s = true) : strContains n (s ++ t) = true := by
  simpa [strContains, String.data_append] using
    charsContain_append t.data (by simpa [strContains] using h)

/-! ### C8 — distance identities -/

lemma radians_sub_swap (u v : ℝ) : radians (u - v) = -(radians (v - u)) := by
  simp only [radians]; ring

lemma sin_sq_radians_sub_swap (u v : ℝ) :
    Real.sin (radians (u - v) / 2) ^ 2 = Real.sin (radians (v - u) / 2) ^ 2 := by
  rw [radians_sub_swap, neg_div, Real.sin_neg, neg_sq]

/-- C8: the haversine distance of a point to itself is zero, and the haversine
distance is symmetric in its two coordinate pairs. -/
theorem C8_distance_zero_and_symm (x y a b c d : ℝ) :
    haversineR x y x y = 0 ∧ haversineR a b c d = haversineR c d a b := by
  constructor
  · simp [haversineR, radians, atan2, sub_self, Real.sqrt_zero, Real.sqrt_one]
  · simp only [haversineR]
    rw [sin_sq_radians_sub_swap c a, sin_sq_radians_sub_swap d b,
      mul_comm (Real.cos (radians a)) (Real.cos (radians c))]

/-! ### C5 / C9 — geocode resolver outcomes -/

lemma geocode_zero_results (pc : String) (results : List GeoResult) :
    get_google_geocode_data pc (.response "ZERO_RESULTS" results) =
      .error ("Postcode not found by Google: " ++ pc) := by
  cases results <;> simp [get_google_geocode_data]

/-- C5: an explicit zero-results status from the geocoding provider yields an
error result (not an exception) whose message contains "not found", and the
caller then attempts no places query. -/
theorem C5_zero_results_not_found (pc : String) (results : List GeoResult) :
    (∃ msg, get_google_geocode_data pc (.response "ZERO_RESULTS" results) =
        .error msg ∧ strContains "not found" msg = true)
    ∧ attemptsPlacesQuery
        (get_google_geocode_data pc (.response "ZERO_RESULTS" results)) =
      false := by
  refine ⟨⟨"Postcode not found by Google: " ++ pc, geocode_zero_results pc results, ?_⟩, ?_⟩
  · exact strContains_append_right pc (by decide)
  · rw [geocode_zero_results pc results]; rfl

/-- C9: a success status with an empty results array takes the generic
provider-error branch — an error result naming the provider status, neither a
Location nor the "not found" outcome — and the caller attempts no places
query. -/
theorem C9_ok_empty_results (pc : String) :
    get_google_geocode_data pc (.response "OK" []) =
        .error ("Geocoding API returned status: " ++ "OK")
    ∧ strContains "not found" ("Geocoding API returned status: " ++ "OK") = false
    ∧ attemptsPlacesQuery (get_google_geocode_data pc (.response "OK" [])) =
      false := by
  refine ⟨rfl, by decide, rfl⟩

/-! ### C2 — mode classification precedence -/

/-- C2: the transport mode is assigned by the fixed rule chain, first match
wins: metrolink-name → tram; subway tag → tube; light-rail tag → tram;
tram-name without train tag → tram; train tag → train; bus tags → bus;
otherwise unclassified. In particular a metrolink name wins over every
category tag, `train_station` included. -/
theorem C2_classification_rules (nm : String) (tys : List String) :
    (strContains "metrolink" (strLower nm) = true →
      classifyPlace nm tys = some .tram_stop)
  ∧ (strContains "metrolink" (strLower nm) = false →
      tys.contains "subway_station" = true →
      classifyPlace nm tys = some .tube_station)
  ∧ (strContains "metrolink" (strLower nm) = false →
      tys.contains "subway_station" = false →
      tys.contains "light_rail_station" = true →
      classifyPlace nm tys = some .tram_stop)
  ∧ (strContains "metrolink" (strLower nm) = false →
      tys.contains "subway_station" = false →
      tys.contains "light_rail_station" = false →
      strContains "tram" (strLower nm) = true →
      tys.contains "train_station" = false →
      classifyPlace nm tys = some .tram_stop)
  ∧ (strContains "metrolink" (strLower nm) = false →
      tys.contains "subway_station" = false →
      tys.contains "light_rail_station" = false →
      tys.contains "train_station" = true →
      classifyPlace nm tys = some .train_station)
  ∧ (strContains "metrolink" (strLower nm) = false →
      tys.contains "subway_station" = false →
      tys.contains "light_rail_station" = false →
      strContains "tram" (strLower nm) = false →
      tys.contains "train_station" = false →
      (tys.contains "bus_station" || tys.contains "bus_stop") = true →
      classifyPlace nm tys = some .bus_stop)
  ∧ (strContains "metrolink" (strLower nm) = false →
      tys.contains "subway_station" = false →
      tys.contains "light_rail_station" = false →
      strContains "tram" (strLower nm) = false →
      tys.contains "train_station" = false →
      tys.contains "bus_station" = false →
      tys.contains "bus_stop" = false →
      classifyPlace nm tys = none)
  ∧ (strContains "metrolink" (strLower nm) = true →
      tys.contains "train_station" = true →
      classifyPlace nm tys = some .tram_stop) := by
  refine ⟨?_, ?_, ?_, ?_, ?_, ?_, ?_, ?_⟩ <;>
    · intros
      simp_all [classifyPlace]

/-! ### C7 — detail-tab sort order -/

lemma distKey_eq_top_iff (p : TransportPlace) :
    distKey p = ⊤ ↔ p.distance = none := by
  cases h : p.distance <;> simp [distKey, h]

/-- C7: sorting a mode group for display yields a list that is ascending in
the distance key, and every place with an unset distance comes after every
place with a set distance. -/
theorem C7_sort_ascending_unset_last (t : TransportMode)
    (member : List TransportPlace) :
    ((sortStations (stationsOfType t member)).Pairwise
      (fun a b => distKey a ≤ distKey b))
    ∧ ((sortStations (stationsOfType t member)).Pairwise
      (fun a b => a.distance = none → b.distance = none)) := by
  have htrans : ∀ a b c : TransportPlace,
      placeLE a b = true → placeLE b c = true → placeLE a c = true := by
    intro a b c hab hbc
    simp only [placeLE, decide_eq_true_eq] at hab hbc ⊢
    exact le_trans hab hbc
  have htot : ∀ a b : TransportPlace, (placeLE a b || placeLE b a) = true := by
    intro a b
    simp only [placeLE, Bool.or_eq_true, decide_eq_true_eq]
    exact le_total _ _
  have hs := List.sorted_mergeSort htrans htot (stationsOfType t member)
  have step : ∀ a b : TransportPlace, placeLE a b = true →
      (a.distance = none → b.distance = none) := by
    intro a b h hna
    have hle : distKey a ≤ distKey b := by simpa [placeLE] using h
    have hb := top_le_iff.mp (((distKey_eq_top_iff a).mpr hna) ▸ hle)
    exact (distKey_eq_top_iff b).mp hb
  constructor
  · exact hs.imp (fun {a b} h => by simpa [placeLE] using h)
  · exact hs.imp (fun {a b} h => step a b h)

/-! ### C10 — classification is query-independent -/

/-- C10: the classification outcome for a candidate (its assigned mode, or
its discard) does not depend on which of the seven queries returned it; and a
candidate found by the "bus stop" keyword query with none of the recognized
category tags and neither "metrolink" nor "tram" in its name is discarded,
not classified as bus. -/
theorem C10_classification_query_independent
    (dist : ℚ → ℚ → ℚ → ℚ → ℤ) (lat lon : ℚ) (olat olon : Option ℚ)
    (q q' : QueryDetail) (acc : List TransportPlace) (place : Place) :
    ((processPlace dist lat lon olat olon q acc place).map
        (fun r => (r.google_place_id, r.type)) =
      (processPlace dist lat lon olat olon q' acc place).map
        (fun r => (r.google_place_id, r.type)))
    ∧ (strContains "metrolink" (strLower (place.name.getD "")) = false →
       strContains "tram" (strLower (place.name.getD "")) = false →
       place.types.contains "subway_station" = false →
       place.types.contains "light_rail_station" = false →
       place.types.contains "train_station" = false →
       place.types.contains "bus_station" = false →
       place.types.contains "bus_stop" = false →
       processPlace dist lat lon olat olon (.byKeyword "bus stop") acc place =
         acc) := by
  constructor
  · unfold processPlace
    cases place.place_id with
    | none => rfl
    | some pid =>
      by_cases hp : pid = ""
      · simp [hp]
      · simp only [hp, if_false]
        cases classifyPlace (place.name.getD "") place.types with
        | none => rfl
        | some m =>
          by_cases hm : acc.any (fun p => p.google_place_id == pid) = true
          · simp [hm]
          · simp [hm]
  · intro h1 h2 h3 h4 h5 h6 h7
    have h3' : "subway_station" ∉ place.types := by simpa using h3
    have h4' : "light_rail_station" ∉ place.types := by simpa using h4
    have h5' : "train_station" ∉ place.types := by simpa using h5
    have h6' : "bus_station" ∉ place.types := by simpa using h6
    have h7' : "bus_stop" ∉ place.types := by simpa using h7
    have hcl : classifyPlace (place.name.getD "") place.types = none := by
      simp [classifyPlace, h1, h2, h3', h4', h5', h6', h7']
    unfold processPlace
    cases place.place_id with
    | none => rfl
    | some pid =>
      by_cases hp : pid = ""
      · simp [hp]
      · simp [hp, hcl]

/-! ### Aggregator invariants and stepping lemmas -/

/-- Provider identifiers are pairwise distinct in a member list. -/
def distinctIds (l : List TransportPlace) : Prop :=
  l.Pairwise (fun a b => a.google_place_id ≠ b.google_place_id)

lemma processPlace_distinctIds {dist lat lon olat olon q acc place}
    (h : distinctIds acc) :
    distinctIds (processPlace dist lat lon olat olon q acc place) := by
  unfold processPlace
  cases place.place_id with
  | none => exact h
  | some pid =>
    by_cases hp : pid = ""
    · simpa [hp] using h
    · simp only [hp, if_false]
      cases classifyPlace (place.name.getD "") place.types with
      | none => exact h
      | some m =>
        by_cases hm : acc.any (fun p => p.google_place_id == pid) = true
        · simpa [hm] using h
        · rw [Bool.not_eq_true] at hm
          simp only [hm, Bool.false_eq_true, if_false]
          unfold distinctIds
          rw [List.pairwise_append]
          refine ⟨h, List.pairwise_singleton _ _, ?_⟩
          intro a ha b hb
          rcases List.mem_singleton.mp hb with rfl
          have hne := List.any_eq_false.mp hm a ha
          simp only [beq_iff_eq] at hne
          simpa using hne

lemma foldl_processPlace_distinctIds {dist lat lon olat olon q}
    (places : List Place) :
    ∀ acc, distinctIds acc →
      distinctIds (places.foldl (processPlace dist lat lon olat olon q) acc) := by
  induction places with
  | nil => intro acc h; exact h
  | cons p ps ih =>
    intro acc h
    exact ih _ (processPlace_distinctIds h)

lemma runQueries_distinctIds {dist api lat lon olat olon} (qs : List QueryDetail) :
    ∀ acc, distinctIds acc →
      distinctIds (runQueries dist api lat lon olat olon qs acc).member := by
  induction qs with
  | nil => intro acc h; exact h
  | cons q rest ih =>
    intro acc h
    unfold runQueries
    cases api q with
    | exception msg => exact h
    | response status results =>
      by_cases hst : status = "OK"
      · simpa [hst] using ih _ (foldl_processPlace_distinctIds results acc h)
      · simpa [hst] using ih _ h

lemma runQueries_cons (dist : ℚ → ℚ → ℚ → ℚ → ℤ)
    (api : QueryDetail → QueryOutcome) (lat lon : ℚ) (olat olon : Option ℚ)
    (q : QueryDetail) (rest : List QueryDetail) (acc : List TransportPlace) :
    runQueries dist api lat lon olat olon (q :: rest) acc =
      match api q with
      | .exception msg => { member := acc, error := some msg }
      | .response status results =>
        if status = "OK" then
          runQueries dist api lat lon olat olon rest
            (results.foldl (processPlace dist lat lon olat olon q) acc)
        else runQueries dist api lat lon olat olon rest acc := rfl

lemma runQueries_skip_empties {dist api lat lon olat olon}
    (qs : List QueryDetail) :
    ∀ (rest : List QueryDetail) (acc : List TransportPlace),
      (∀ x ∈ qs, api x = .response "OK" []) →
      runQueries dist api lat lon olat olon (qs ++ rest) acc =
        runQueries dist api lat lon olat olon rest acc := by
  induction qs with
  | nil => intro rest acc _; rfl
  | cons x xs ih =>
    intro rest acc h
    have hx := h x (List.mem_cons_self x xs)
    rw [List.cons_append, runQueries_cons, hx]
    simpa using ih rest acc (fun y hy => h y (List.mem_cons_of_mem x hy))

lemma runQueries_all_empties {dist api lat lon olat olon}
    (qs : List QueryDetail) (acc : List TransportPlace)
    (h : ∀ x ∈ qs, api x = .response "OK" []) :
    runQueries dist api lat lon olat olon qs acc = ⟨acc, none⟩ := by
  have h2 := @runQueries_skip_empties dist api lat lon olat olon qs [] acc h
  rwa [List.append_nil] at h2

lemma processPlace_existing_id {dist lat lon olat olon q acc place pid}
    (hex : ∃ p ∈ acc, p.google_place_id = pid)
    (hpl : place.place_id = some pid) :
    processPlace dist lat lon olat olon q acc place = acc := by
  unfold processPlace
  rw [hpl]
  by_cases hp : pid = ""
  · simp [hp]
  · simp only [hp, if_false]
    cases classifyPlace (place.name.getD "") place.types with
    | none => rfl
    | some m =>
      obtain ⟨p, hmem, hid⟩ := hex
      have : acc.any (fun p => p.google_place_id == pid) = true :=
        List.any_eq_true.mpr ⟨p, hmem, beq_iff_eq.mpr hid⟩
      simp [this]

/-! ### C1 — deduplication, first classifying query wins -/

/-- C1: every aggregated result set has pairwise-distinct provider
identifiers, and when two queries of the fixed 7-query order both return a
candidate with the same identifier, the result keeps exactly one entry for
that identifier — the one classified from the earlier query — discarding the
later occurrence whatever it would have classified to. -/
theorem C1_dedup_first_query_wins
    (api : QueryDetail → QueryOutcome) (lat lon radius : ℚ)
    (olat olon : Option ℚ) (l1 l2 l3 : List QueryDetail) (qi qj : QueryDetail)
    (A B : Place) (pid : String) (mA : TransportMode)
    (hsplit : queriesList = l1 ++ qi :: (l2 ++ qj :: l3))
    (hqi : api qi = .response "OK" [A])
    (hqj : api qj = .response "OK" [B])
    (hrest : ∀ x, (x ∈ l1 ∨ x ∈ l2 ∨ x ∈ l3) → api x = .response "OK" [])
    (hA : A.place_id = some pid) (hpid : pid ≠ "")
    (hB : B.place_id = some pid)
    (hclA : classifyPlace (A.name.getD "") A.types = some mA) :
    (∀ (api' : QueryDetail → QueryOutcome) (lat' lon' radius' : ℚ)
        (olat' olon' : Option ℚ),
      (get_google_places_data api' lat' lon' radius' olat' olon').member.Pairwise
        (fun p q => p.google_place_id ≠ q.google_place_id))
    ∧ (get_google_places_data api lat lon radius olat olon).member.map
        (fun p => (p.google_place_id, p.type, p.debug_query_source)) =
      [(pid, mA, qi)]
    ∧ (get_google_places_data api lat lon radius olat olon).error = none := by
  have hmain : get_google_places_data api lat lon radius olat olon =
      ⟨[{ name := A.name
          latitude := A.lat
          longitude := A.lon
          type := mA
          description := A.vicinity
          google_place_id := pid
          distance := placeDistance haversineQ lat lon olat olon A.lat A.lon
          google_types := A.types
          debug_query_source := qi }], none⟩ := by
    unfold get_google_places_data aggregateWith
    rw [hsplit]
    rw [runQueries_skip_empties l1 _ [] (fun x hx => hrest x (Or.inl hx))]
    rw [runQueries_cons, hqi]
    simp only [if_pos rfl, List.foldl_cons, List.foldl_nil, reduceIte]
    have hprocA : processPlace haversineQ lat lon olat olon qi [] A =
        [{ name := A.name
           latitude := A.lat
           longitude := A.lon
           type := mA
           description := A.vicinity
           google_place_id := pid
           distance := placeDistance haversineQ lat lon olat olon A.lat A.lon
           google_types := A.types
           debug_query_source := qi }] := by
      unfold processPlace
      rw [hA, hclA]
      simp [hpid]
    rw [hprocA]
    rw [runQueries_skip_empties l2 _ _ (fun x hx => hrest x (Or.inr (Or.inl hx)))]
    rw [runQueries_cons, hqj]
    simp only [if_pos rfl, List.foldl_cons, List.foldl_nil, reduceIte]
    rw [processPlace_existing_id ⟨_, List.mem_singleton_self _, rfl⟩ hB]
    exact runQueries_all_empties l3 _ (fun x hx => hrest x (Or.inr (Or.inr hx)))
  refine ⟨?_, ?_, ?_⟩
  · intro api' lat' lon' radius' olat' olon'
    exact runQueries_distinctIds queriesList [] (List.Pairwise.nil)
  · rw [hmain]; rfl
  · rw [hmain]

/-! ### C3 — transport-level failure stops the aggregation -/

lemma runQueries_responses_split {dist api lat lon olat olon}
    (qs1 : List QueryDetail) :
    ∀ (rest : List QueryDetail) (acc : List TransportPlace),
      (∀ x ∈ qs1, ∃ st rs, api x = QueryOutcome.response st rs) →
      ∃ acc',
        runQueries dist api lat lon olat olon (qs1 ++ rest) acc =
          runQueries dist api lat lon olat olon rest acc' ∧
        runQueries dist api lat lon olat olon qs1 acc = ⟨acc', none⟩ := by
  induction qs1 with
  | nil => intro rest acc _; exact ⟨acc, rfl, rfl⟩
  | cons x xs ih =>
    intro rest acc h
    obtain ⟨st, rs, hx⟩ := h x (List.mem_cons_self x xs)
    have htail := fun y hy => h y (List.mem_cons_of_mem x hy)
    by_cases hst : st = "OK"
    · obtain ⟨acc', h1, h2⟩ :=
        ih rest (rs.foldl (processPlace dist lat lon olat olon x) acc) htail
      refine ⟨acc', ?_, ?_⟩
      · rw [List.cons_append, runQueries_cons, hx]
        simpa [hst] using h1
      · rw [runQueries_cons, hx]
        simpa [hst] using h2
    · obtain ⟨acc', h1, h2⟩ := ih rest acc htail
      refine ⟨acc', ?_, ?_⟩
      · rw [List.cons_append, runQueries_cons, hx]
        simpa [hst] using h1
      · rw [runQueries_cons, hx]
        simpa [hst] using h2

lemma runQueries_agree_until_failure {dist api api' lat lon olat olon q msg}
    (qs2 : List QueryDetail) (qs1 : List QueryDetail) :
    ∀ acc,
      (∀ x ∈ qs1, api' x = api x) → api' q = api q →
      api q = QueryOutcome.exception msg →
      runQueries dist api' lat lon olat olon (qs1 ++ q :: qs2) acc =
        runQueries dist api lat lon olat olon (qs1 ++ q :: qs2) acc := by
  induction qs1 with
  | nil =>
    intro acc _ hq' hfail
    rw [List.nil_append, runQueries_cons, runQueries_cons, hq', hfail]
  | cons x xs ih =>
    intro acc h hq' hfail
    have hx := h x (List.mem_cons_self x xs)
    have htail := fun y hy => h y (List.mem_cons_of_mem x hy)
    simp only [List.cons_append]
    rw [runQueries_cons, runQueries_cons, hx]
    cases api x with
    | exception e => rfl
    | response st rs =>
      by_cases hst : st = "OK"
      · simp only [hst, reduceIte]
        exact ih _ htail hq' hfail
      · simp only [if_neg hst]
        exact ih _ htail hq' hfail

/-- C3: when a query fails at the transport level, the aggregator returns the
candidates accumulated from the queries processed so far together with the
error indicator, and issues no further queries (the result does not depend on
the API beyond the failing query); a failure on the first query yields an
empty member set with the error indicator set. -/
theorem C3_failure_stops_with_partial_results
    (api : QueryDetail → QueryOutcome) (lat lon radius : ℚ)
    (olat olon : Option ℚ) (qs1 qs2 : List QueryDetail) (q : QueryDetail)
    (msg : String)
    (hsplit : queriesList = qs1 ++ q :: qs2)
    (hok : ∀ x ∈ qs1, ∃ st rs, api x = QueryOutcome.response st rs)
    (hfail : api q = QueryOutcome.exception msg) :
    (get_google_places_data api lat lon radius olat olon).member =
      (runQueries haversineQ api lat lon olat olon qs1 []).member
    ∧ (get_google_places_data api lat lon radius olat olon).error = some msg
    ∧ (∀ api' : QueryDetail → QueryOutcome,
        (∀ x ∈ qs1, api' x = api x) → api' q = api q →
        get_google_places_data api' lat lon radius olat olon =
          get_google_places_data api lat lon radius olat olon)
    ∧ (qs1 = [] →
        get_google_places_data api lat lon radius olat olon =
          { member := [], error := some msg }) := by
  obtain ⟨acc', h1, h2⟩ :=
    @runQueries_responses_split haversineQ api lat lon olat olon qs1
      (q :: qs2) [] hok
  have hfull : get_google_places_data api lat lon radius olat olon =
      ⟨acc', some msg⟩ := by
    unfold get_google_places_data aggregateWith
    rw [hsplit, h1, runQueries_cons, hfail]
  refine ⟨?_, ?_, ?_, ?_⟩
  · rw [hfull, h2]
  · rw [hfull]
  · intro api' hagree hq'
    unfold get_google_places_data aggregateWith
    rw [hsplit]
    exact runQueries_agree_until_failure qs2 qs1 [] hagree hq' hfail
  · intro hnil
    subst hnil
    rw [hfull]
    have : acc' = [] := by
      have := h2
      rw [runQueries] at this
      cases this
      rfl
    rw [this]

/-! ### C6 — a non-success, non-zero-results status is skipped, not fatal -/

lemma runQueries_update_bad_status {dist api lat lon olat olon q st rs}
    (hq : api q = QueryOutcome.response st rs) (hOK : st ≠ "OK")
    (qs : List QueryDetail) :
    ∀ acc,
      runQueries dist api lat lon olat olon qs acc =
        runQueries dist (updateApi api q (.response "ZERO_RESULTS" []))
          lat lon olat olon qs acc := by
  induction qs with
  | nil => intro acc; rfl
  | cons x xs ih =>
    intro acc
    rw [runQueries_cons, runQueries_cons]
    by_cases hxq : x = q
    · subst hxq
      rw [hq, updateApi, if_pos rfl]
      simp only [if_neg hOK, reduceCtorEq, reduceIte]
      exact ih acc
    · rw [show updateApi api q (.response "ZERO_RESULTS" []) x = api x from
        if_neg hxq]
      cases api x with
      | exception e => rfl
      | response st' rs' =>
        by_cases hst' : st' = "OK"
        · simp only [hst', reduceIte]
          exact ih _
        · simp only [if_neg hst']
          exact ih acc

/-- C6: a query answered with a non-success status other than zero-results
contributes no candidates and no error indicator, and the aggregator carries
on: the whole run equals the run in which that query answered zero-results,
and at the loop level the query is skipped with the accumulator unchanged. -/
theorem C6_bad_status_skipped
    (api : QueryDetail → QueryOutcome) (lat lon radius : ℚ)
    (olat olon : Option ℚ) (q : QueryDetail) (st : String) (rs : List Place)
    (hq : api q = QueryOutcome.response st rs)
    (hOK : st ≠ "OK") (hZR : st ≠ "ZERO_RESULTS") :
    get_google_places_data api lat lon radius olat olon =
      get_google_places_data (updateApi api q (.response "ZERO_RESULTS" []))
        lat lon radius olat olon
    ∧ (∀ (rest : List QueryDetail) (acc : List TransportPlace),
        runQueries haversineQ api lat lon olat olon (q :: rest) acc =
          runQueries haversineQ api lat lon olat olon rest acc) := by
  constructor
  · unfold get_google_places_data aggregateWith
    exact runQueries_update_bad_status hq hOK queriesList []
  · intro rest acc
    rw [runQueries_cons, hq]
    simp [hOK]

/-! ### C4 — the distance field of inserted candidates -/

/-- The distance the source actually stores for a member whose coordinate is
`(plat, plon)`: the haversine distance from the origin when both origin
coordinates are supplied and nonzero (Python-truthy), and unset when either
is missing or zero. -/
noncomputable def memberDistanceSpec (olat olon : Option ℚ) (plat plon : ℚ) :
    Option ℤ :=
  match olat, olon with
  | some a, some b =>
    if a ≠ 0 ∧ b ≠ 0 then some (haversineQ a b plat plon) else none
  | _, _ => none

lemma placeDistance_eq_spec (lat lon plat plon : ℚ) (olat olon : Option ℚ) :
    placeDistance haversineQ lat lon olat olon plat plon =
      memberDistanceSpec olat olon plat plon := by
  cases olat with
  | none => rfl
  | some a =>
    cases olon with
    | none => simp [placeDistance, memberDistanceSpec, qTruthy]
    | some b =>
      by_cases ha : a = 0 <;> by_cases hb : b = 0 <;>
        simp [placeDistance, memberDistanceSpec, qTruthy, qOrElse, ha, hb,
          bne_iff_ne]

lemma processPlace_distance_inv {dist lat lon olat olon q acc place}
    (h : ∀ p ∈ acc,
      p.distance = placeDistance dist lat lon olat olon p.latitude p.longitude) :
    ∀ p ∈ processPlace dist lat lon olat olon q acc place,
      p.distance = placeDistance dist lat lon olat olon p.latitude p.longitude := by
  unfold processPlace
  cases place.place_id with
  | none => exact h
  | some pid =>
    by_cases hp : pid = ""
    · simpa [hp] using h
    · simp only [hp, if_false]
      cases classifyPlace (place.name.getD "") place.types with
      | none => exact h
      | some m =>
        by_cases hm : acc.any (fun p => p.google_place_id == pid) = true
        · simpa [hm] using h
        · rw [Bool.not_eq_true] at hm
          simp only [hm, Bool.false_eq_true, if_false]
          intro p hmem
          rcases List.mem_append.mp hmem with hacc | hnew
          · exact h p hacc
          · rcases List.mem_singleton.mp hnew with rfl
            rfl

lemma foldl_processPlace_distance_inv {dist lat lon olat olon q}
    (places : List Place) :
    ∀ acc,
      (∀ p ∈ acc,
        p.distance = placeDistance dist lat lon olat olon p.latitude p.longitude) →
      ∀ p ∈ places.foldl (processPlace dist lat lon olat olon q) acc,
        p.distance = placeDistance dist lat lon olat olon p.latitude p.longitude := by
  induction places with
  | nil => intro acc h; exact h
  | cons pl pls ih =>
    intro acc h
    exact ih _ (processPlace_distance_inv h)

lemma runQueries_distance_inv {dist api lat lon olat olon}
    (qs : List QueryDetail) :
    ∀ acc,
      (∀ p ∈ acc,
        p.distance = placeDistance dist lat lon olat olon p.latitude p.longitude) →
      ∀ p ∈ (runQueries dist api lat lon olat olon qs acc).member,
        p.distance = placeDistance dist lat lon olat olon p.latitude p.longitude := by
  induction qs with
  | nil => intro acc h; exact h
  | cons q rest ih =>
    intro acc h
    rw [runQueries_cons]
    cases api q with
    | exception msg => exact h
    | response status results =>
      by_cases hst : status = "OK"
      · simp only [hst, reduceIte]
        exact ih _ (foldl_processPlace_distance_inv results acc h)
      · simp only [if_neg hst]
        exact ih _ h

/-- C4 (amended): each member of the aggregated result carries the haversine
distance from the origin to its own coordinate, rounded to the nearest whole
meter, whenever both origin coordinates are supplied *and nonzero*; when the
origin is absent — or either origin coordinate is zero, which the source's
truthiness test treats as absent — the distance is left unset. -/
theorem C4_distance_field_amended
    (api : QueryDetail → QueryOutcome) (lat lon radius : ℚ)
    (olat olon : Option ℚ) (p : TransportPlace)
    (hp : p ∈ (get_google_places_data api lat lon radius olat olon).member) :
    p.distance = memberDistanceSpec olat olon p.latitude p.longitude := by
  rw [← placeDistance_eq_spec lat lon p.latitude p.longitude olat olon]
  exact runQueries_distance_inv queriesList [] (by intro x hx; cases hx) p hp

/-- C4 counterexample to the claim as stated: with origin coordinates
provided as `(0, 5)` — latitude on the equator — the single inserted
candidate's distance field is left unset instead of being the haversine
distance from the origin, because the source guards the computation with
Python truthiness (`if origin_lat and origin_lon`) and `0.0` is falsy. -/
theorem C4_distance_field_counterexample :
    ((get_google_places_data
        (fun q => match q with
          | .byType "train_station" => .response "OK"
              [{ place_id := some "X", name := some "Alpha Stn",
                 types := ["train_station"], lat := 1, lon := 2,
                 vicinity := none }]
          | _ => .response "ZERO_RESULTS" [])
        50 (-2) 1000 (some 0) (some 5)).member.map (fun p => p.distance) =
      [none])
    ∧ (some 0 : Option ℚ) ≠ none ∧ (some 5 : Option ℚ) ≠ none
    ∧ (none : Option ℤ) ≠ some (haversineQ 0 5 1 2) := by
  refine ⟨by decide, by simp, by simp, by simp⟩

/-! ### Concrete sample data and witnesses -/

/-- A candidate with identifier "X" tagged as a train station. -/
def samplePlaceTrainX : Place :=
  { place_id := some "X", name := some "Alpha Stn",
    types := ["train_station"], lat := 1, lon := 2, vicinity := none }

/-- The same identifier "X", tagged as a light-rail station. -/
def samplePlaceLightRailX : Place :=
  { place_id := some "X", name := some "Alpha Stn",
    types := ["light_rail_station"], lat := 1, lon := 2, vicinity := none }

/-- An API where query 1 (train_station) and query 3 (light_rail_station)
both return identifier "X" and every other query returns nothing. -/
def sampleApiC1 : QueryDetail → QueryOutcome :=
  fun q =>
    match q with
    | .byType "train_station" => .response "OK" [samplePlaceTrainX]
    | .byType "light_rail_station" => .response "OK" [samplePlaceLightRailX]
    | _ => .response "OK" []

theorem C1_dedup_first_query_wins_witness :
    (get_google_places_data sampleApiC1 50 (-2) 1000 none none).member.map
        (fun p => (p.google_place_id, p.type, p.debug_query_source)) =
      [("X", TransportMode.train_station, QueryDetail.byType "train_station")]
    ∧ (get_google_places_data sampleApiC1 50 (-2) 1000 none none).error =
      none := by
  have h := C1_dedup_first_query_wins sampleApiC1 50 (-2) 1000 none none
    [] [.byType "subway_station"]
    [.byKeyword "Metrolink station", .byKeyword "tram stop",
     .byType "bus_station", .byKeyword "bus stop"]
    (.byType "train_station") (.byType "light_rail_station")
    samplePlaceTrainX samplePlaceLightRailX "X" .train_station
    rfl rfl rfl
    (by
      intro x hx
      rcases hx with h | h | h
      · cases h
      · simp only [List.mem_singleton] at h; subst h; rfl
      · simp only [List.mem_cons, List.mem_singleton, List.not_mem_nil,
          or_false] at h
        rcases h with rfl | rfl | rfl | rfl <;> rfl)
    rfl (by decide) rfl (by decide)
  exact ⟨h.2.1, h.2.2⟩

theorem C2_classification_rules_witness :
    strContains "metrolink" (strLower "Manchester Metrolink - Piccadilly") =
      true
    ∧ classifyPlace "Manchester Metrolink - Piccadilly"
        ["light_rail_station", "train_station"] =
      some TransportMode.tram_stop :=
  ⟨by decide,
    (C2_classification_rules "Manchester Metrolink - Piccadilly"
      ["light_rail_station", "train_station"]).2.2.2.2.2.2.2
      (by decide) (by decide)⟩

/-- An API on which every query times out. -/
def sampleApiTimeout : QueryDetail → QueryOutcome :=
  fun _ => .exception "timeout"

theorem C3_failure_stops_with_partial_results_witness :
    get_google_places_data sampleApiTimeout 1 2 1000 none none =
      { member := [], error := some "timeout" } :=
  (C3_failure_stops_with_partial_results sampleApiTimeout 1 2 1000 none none
    [] [.byType "subway_station", .byType "light_rail_station",
        .byKeyword "Metrolink station", .byKeyword "tram stop",
        .byType "bus_station", .byKeyword "bus stop"]
    (.byType "train_station") "timeout" rfl
    (by intro x hx; cases hx) rfl).2.2.2 rfl

/-- An API where only the train-station query returns a candidate. -/
def sampleApiTrain : QueryDetail → QueryOutcome :=
  fun q =>
    match q with
    | .byType "train_station" => .response "OK" [samplePlaceTrainX]
    | _ => .response "ZERO_RESULTS" []

/-- The member record the aggregator builds from `samplePlaceTrainX` when no
origin coordinates are supplied. -/
def sampleMemberTrainX : TransportPlace :=
  { name := some "Alpha Stn", latitude := 1, longitude := 2,
    type := .train_station, description := none, google_place_id := "X",
    distance := none, google_types := ["train_station"],
    debug_query_source := .byType "train_station" }

theorem C4_distance_field_amended_witness :
    sampleMemberTrainX ∈
      (get_google_places_data sampleApiTrain 50 (-2) 1000 none none).member
    ∧ sampleMemberTrainX.distance =
      memberDistanceSpec none none sampleMemberTrainX.latitude
        sampleMemberTrainX.longitude :=
  ⟨by decide,
    C4_distance_field_amended sampleApiTrain 50 (-2) 1000 none none
      sampleMemberTrainX (by decide)⟩

/-- An API on which every query is answered with a quota-exceeded status. -/
def sampleApiOverLimit : QueryDetail → QueryOutcome :=
  fun _ => .response "OVER_QUERY_LIMIT" []

theorem C6_bad_status_skipped_witness :
    get_google_places_data sampleApiOverLimit 1 2 1000 none none =
      get_google_places_data
        (updateApi sampleApiOverLimit (.byType "train_station")
          (.response "ZERO_RESULTS" [])) 1 2 1000 none none :=
  (C6_bad_status_skipped sampleApiOverLimit 1 2 1000 none none
    (.byType "train_station") "OVER_QUERY_LIMIT" [] rfl
    (by decide) (by decide)).1

/-- A candidate with only generic point-of-interest tags and a neutral name,
as the "bus stop" keyword query can return. -/
def samplePoiPlace : Place :=
  { place_id := some "P", name := some "Opposite The Swan",
    types := ["point_of_interest", "establishment"], lat := 3, lon := 4,
    vicinity := none }

theorem C10_classification_query_independent_witness :
    strContains "metrolink" (strLower (samplePoiPlace.name.getD "")) = false
    ∧ processPlace haversineQ 1 2 none none (.byKeyword "bus stop") []
        samplePoiPlace = [] :=
  ⟨by decide,
    (C10_classification_query_independent haversineQ 1 2 none none
      (.byKeyword "bus stop") (.byKeyword "bus stop") [] samplePoiPlace).2
      (by decide) (by decide) (by decide) (by decide) (by decide) (by decide)
      (by decide)⟩

end TransportInfo
